import Mathlib

/-!
Formal model of the x402 minimal Aptos facilitator (src/facilitator.js):
the payment-intent verification pipeline (`verifyPayment`) and the
settlement coordinator (`settlePayment`), together with theorems checking
the natural-language specification's claims against this model.

The JavaScript source is embedded shallowly:
* machine integers and account addresses become `Nat` (an Aptos account
  address is a 32-byte value, kept as its numeric value);
* JavaScript exceptions become `Except String` (the string is the
  exception's `message`);
* the external ledger collaborator (simulation, submission, confirmation)
  becomes a record of oracle functions, and `settlePayment` additionally
  returns the list of ledger calls it performed, so that claims about
  "no submission attempt" or "submits with both signatures" are statable.
-/

/-- An Aptos account address, kept as its 32-byte numeric value. -/
abbrev Addr := Nat

/-- Public-key material extracted from a sender authenticator
(`single` for Ed25519 / generic single-key, `multi` for multi-key). -/
inductive PubKeyMaterial
  | single (key : Nat)
  | multi (keys : List Nat)
deriving DecidableEq

/-- Sender authentication proof: the tagged union deserialized by
`AccountAuthenticator.deserialize` (src/facilitator.js line 72).  The four
variants of the SDK's union are Ed25519, legacy multi-Ed25519, generic
single-key and multi-key; key material is abstracted to `Nat`. -/
inductive AccountAuthenticator
  | ed25519 (public_key : Nat)
  | multiEd25519 (public_keys : List Nat)
  | singleKey (public_key : Nat)
  | multiKey (public_keys : List Nat)
deriving DecidableEq

/-- The public-key extraction of src/facilitator.js lines 153-160:
`isEd25519` and `isSingleKey` take `public_key`, `isMultiKey` takes
`public_keys`; any other variant leaves the key material undefined. -/
def extractPublicKey : AccountAuthenticator → Option PubKeyMaterial
  | .ed25519 key => some (.single key)
  | .singleKey key => some (.single key)
  | .multiKey keys => some (.multi keys)
  | .multiEd25519 _ => none

/-- A decoded entry-function call (`transaction.rawTransaction.payload.entryFunction`).
`module_address` models `entryFunction.module_name.address`, `module_name`
models `entryFunction.module_name.name.identifier`, `function_name` models
`entryFunction.function_name.identifier`.  Each positional argument is the
byte list produced by its `bcsToBytes()`. -/
structure EntryFunction where
  module_address : Addr
  module_name : String
  function_name : String
  type_args : List String
  args : List (List Nat)
deriving DecidableEq

/-- The tagged payload union of a raw transaction: only the entry-function
variant is meaningful to the facilitator (the `'entryFunction' in payload`
probe of src/facilitator.js line 76); every other variant is `other`. -/
inductive TransactionPayload
  | entryFunction (ef : EntryFunction)
  | other
deriving DecidableEq

/-- A raw transaction: sender address plus tagged payload. -/
structure RawTransaction where
  sender : Addr
  payload : TransactionPayload
deriving DecidableEq

/-- A `SimpleTransaction`: raw transaction plus the (initially absent)
fee-payer address field mutated on the sponsored settle path. -/
structure SimpleTransaction where
  rawTransaction : RawTransaction
  feePayerAddress : Option Addr
deriving DecidableEq

/-- Modelled from the spec: the opaque base64 `transaction` field of the
payment payload, at the level of its decode outcome.  The actual base64 /
JSON / BCS decoding is performed by the external SDK (EnvelopeCodec);
malformed base64 or JSON, a truncated binary buffer or an unrecognized
variant tag anywhere in the union chain all collapse to a thrown decode
error carrying a message (`malformed`), while a well-formed envelope
yields a transaction and a sender authenticator. -/
inductive Envelope
  | wellFormed (transaction : SimpleTransaction) (senderAuthenticator : AccountAuthenticator)
  | malformed (message : String)
deriving DecidableEq

/-- The result of `deserializeAptosPayment`. -/
structure DecodedPayment where
  transaction : SimpleTransaction
  senderAuthenticator : AccountAuthenticator
  entryFunction : Option EntryFunction
deriving DecidableEq

/-- src/facilitator.js lines 64-81: decode the envelope and extract the
entry function when the payload union carries one.  A decode failure is a
thrown exception, modelled as `Except.error`. -/
def deserializeAptosPayment : Envelope → Except String DecodedPayment
  | .malformed message => .error message
  | .wellFormed transaction senderAuthenticator =>
      .ok { transaction := transaction,
            senderAuthenticator := senderAuthenticator,
            entryFunction :=
              match transaction.rawTransaction.payload with
              | .entryFunction ef => some ef
              | .other => none }

/-- The `accepted` descriptor of a payment payload. -/
structure AcceptedDescriptor where
  scheme : String
  network : String
deriving DecidableEq

/-- The `payload` object of a payment payload, carrying the opaque
base64 transaction field. -/
structure AptosPayload where
  transaction : Envelope
deriving DecidableEq

/-- A payment payload as received by verify/settle. -/
structure PaymentPayload where
  accepted : AcceptedDescriptor
  payload : AptosPayload
deriving DecidableEq

/-- The `extra` object of payment requirements; `sponsored` is absent or a
boolean (src/facilitator.js line 201 probes `extra?.sponsored === true`). -/
structure RequirementsExtra where
  sponsored : Option Bool
deriving DecidableEq

/-- Payment requirements as received by verify/settle. -/
structure PaymentRequirements where
  scheme : String
  network : String
  asset : String
  payTo : String
  amount : String
  extra : Option RequirementsExtra
deriving DecidableEq

/-- Lowercase hex digit for a value below 16. -/
def hexChar (n : Nat) : Char :=
  if n < 10 then Char.ofNat (48 + n) else Char.ofNat (87 + n)

/-- Hex digits of `n`, most significant first (fuel-bounded division). -/
def hexDigitsAux : Nat → Nat → List Char
  | 0, _ => []
  | fuel + 1, n => if n = 0 then [] else hexDigitsAux fuel (n / 16) ++ [hexChar (n % 16)]

/-- Hex digits of `n` (at least one digit; 64 digits suffice for 32 bytes). -/
def hexDigitsOf (n : Nat) : List Char :=
  if n = 0 then [Char.ofNat 48] else hexDigitsAux 64 n

/-- Modelled from the spec: the SDK's `AccountAddress.toStringLong`,
`0x` followed by the full 64 zero-padded hex digits. -/
def toLongString (a : Addr) : String :=
  let ds := hexDigitsOf a
  String.mk (Char.ofNat 48 :: Char.ofNat 120 :: (List.replicate (64 - ds.length) (Char.ofNat 48) ++ ds))

/-- Modelled from the spec: the SDK's `AccountAddress.toString`, which
renders the sixteen special addresses `0x0`-`0xf` in short form and every
other address in the long form. -/
def toShortString (a : Addr) : String :=
  if a < 16 then String.mk [Char.ofNat 48, Char.ofNat 120, hexChar a] else toLongString a

/-- Value of a hex digit character, `none` for a non-hex character. -/
def hexVal (c : Char) : Option Nat :=
  if 48 ≤ c.toNat ∧ c.toNat ≤ 57 then some (c.toNat - 48)
  else if 97 ≤ c.toNat ∧ c.toNat ≤ 102 then some (c.toNat - 87)
  else if 65 ≤ c.toNat ∧ c.toNat ≤ 70 then some (c.toNat - 55)
  else none

/-- Accumulating hex parse of a digit list; `none` on a non-hex character. -/
def parseHexAux : List Char → Nat → Option Nat
  | [], acc => some acc
  | c :: cs, acc =>
      match hexVal c with
      | none => none
      | some v => parseHexAux cs (acc * 16 + v)

/-- Strip a leading `0x` from a character list, if present. -/
def stripHexPrefix : List Char → List Char
  | c1 :: c2 :: rest =>
      if c1.toNat = 48 ∧ c2.toNat = 120 then rest else c1 :: c2 :: rest
  | l => l

/-- Modelled from the spec: the SDK's `AccountAddress.from` on a string
(optional `0x` prefix, between 1 and 64 hex digits, compared by numeric
value); an invalid string is a thrown exception. -/
def parseAddressString (s : String) : Except String Addr :=
  let body := stripHexPrefix s.data
  if body.length = 0 ∨ 64 < body.length then .error "invalid account address string"
  else
    match parseHexAux body 0 with
    | some v => .ok v
    | none => .error "invalid account address hex"

/-- Modelled from the spec: the SDK's `AccountAddress.from` on raw bytes,
which requires exactly 32 bytes (big-endian value); anything else is a
thrown exception. -/
def addrFromBytes (bytes : List Nat) : Except String Addr :=
  if bytes.length = 32 then
    .ok (bytes.foldl (fun acc b => acc * 256 + b % 256) 0)
  else .error "invalid account address bytes"

/-- Modelled from the spec: a BCS u64 read (`deserializeU64`): the first
8 bytes little-endian; a truncated buffer is a thrown exception. -/
def deserializeU64 (bytes : List Nat) : Except String Nat :=
  if bytes.length < 8 then .error "reached the end of the buffer"
  else .ok (((bytes.take 8).reverse).foldl (fun acc b => acc * 256 + b % 256) 0)

/-- The verify endpoint's result value. -/
structure VerifyResult where
  isValid : Bool
  invalidReason : Option String
  payer : String
deriving DecidableEq

/-- An invalid verify result (`{ isValid: false, invalidReason, payer }`). -/
def invalidResult (reason payer : String) : VerifyResult :=
  { isValid := false, invalidReason := some reason, payer := payer }

/-- A valid verify result (`{ isValid: true, payer }`). -/
def validResult (payer : String) : VerifyResult :=
  { isValid := true, invalidReason := none, payer := payer }

/-- One element of the simulation collaborator's response array. -/
structure SimulationResult where
  success : Bool
  vm_status : String
deriving DecidableEq

/-- Outcome of the external simulation collaborator: either a result
object or a thrown transport/exception-level failure. -/
inductive SimOutcome
  | result (simulationResult : SimulationResult)
  | thrown (message : String)
deriving DecidableEq

/-- The external simulation collaborator, as invoked with the extracted
public-key material (possibly undefined) and the decoded transaction. -/
abbrev SimOracle := Option PubKeyMaterial → SimpleTransaction → SimOutcome

/-- src/facilitator.js lines 151-174: extract the sender's public-key
material, invoke the simulation collaborator (inner try/catch) and map
its outcome to a verify result. -/
def simulationCheck (sim : SimOracle) (d : DecodedPayment) (senderAddress : String) : VerifyResult :=
  match sim (extractPublicKey d.senderAuthenticator) d.transaction with
  | .thrown message => invalidResult ("simulation_error: " ++ message) senderAddress
  | .result simulationResult =>
      if simulationResult.success then validResult senderAddress
      else invalidResult ("simulation_failed: " ++ simulationResult.vm_status) senderAddress

/-- src/facilitator.js lines 129-174: the argument checks (asset,
recipient, amount) followed by simulation, for a destructured
three-argument entry function.  Secondary decodes of the argument bytes
can throw, modelled as `Except.error`. -/
def checkArgsAndSimulate (sim : SimOracle) (pr : PaymentRequirements) (d : DecodedPayment)
    (senderAddress : String) (faAddressArg recipientAddressArg amountArg : List Nat) :
    Except String VerifyResult :=
  match addrFromBytes faAddressArg with
  | .error e => .error e
  | .ok faAddress =>
    match parseAddressString pr.asset with
    | .error e => .error e
    | .ok expectedAsset =>
      if faAddress ≠ expectedAsset then
        .ok (invalidResult "invalid_payment_asset_mismatch" senderAddress)
      else
        match addrFromBytes recipientAddressArg with
        | .error e => .error e
        | .ok recipientAddress =>
          match parseAddressString pr.payTo with
          | .error e => .error e
          | .ok expectedPayTo =>
            if recipientAddress ≠ expectedPayTo then
              .ok (invalidResult "invalid_payment_recipient_mismatch" senderAddress)
            else
              match deserializeU64 amountArg with
              | .error e => .error e
              | .ok amountValue =>
                if Nat.repr amountValue ≠ pr.amount then
                  .ok (invalidResult "invalid_payment_amount_mismatch" senderAddress)
                else .ok (simulationCheck sim d senderAddress)

/-- src/facilitator.js lines 104-174: the checks applied to a decoded
payment (entry-function presence, canonical function identity, type and
positional argument counts, then `checkArgsAndSimulate`).  The source
checks `args.length !== 3` and then destructures; the three-element match
below combines those two steps. -/
def decodedCheck (sim : SimOracle) (pr : PaymentRequirements) (d : DecodedPayment) :
    Except String VerifyResult :=
  let senderAddress := toShortString d.transaction.rawTransaction.sender
  match d.entryFunction with
  | none => .ok (invalidResult "invalid_payment_missing_entry_function" senderAddress)
  | some entryFunction =>
    if ¬ (entryFunction.module_address = 1 ∧ entryFunction.module_name = "primary_fungible_store" ∧
          entryFunction.function_name = "transfer") then
      .ok (invalidResult "invalid_payment_wrong_function" senderAddress)
    else if entryFunction.type_args.length ≠ 1 then
      .ok (invalidResult "invalid_payment_wrong_type_args" senderAddress)
    else
      match entryFunction.args with
      | [faAddressArg, recipientAddressArg, amountArg] =>
          checkArgsAndSimulate sim pr d senderAddress faAddressArg recipientAddressArg amountArg
      | _ => .ok (invalidResult "invalid_payment_wrong_args" senderAddress)

/-- src/facilitator.js lines 86-175, the body of the outer try block of
`verifyPayment`: scheme and network checks, envelope decode, then
`decodedCheck`.  A thrown exception is an `Except.error`. -/
def verifyBody (sim : SimOracle) (pp : PaymentPayload) (pr : PaymentRequirements) :
    Except String VerifyResult :=
  if pp.accepted.scheme ≠ "exact" ∨ pr.scheme ≠ "exact" then
    .ok (invalidResult "unsupported_scheme" "")
  else if pp.accepted.network ≠ pr.network then
    .ok (invalidResult "network_mismatch" "")
  else
    match deserializeAptosPayment pp.payload.transaction with
    | .error e => .error e
    | .ok d => decodedCheck sim pr d

/-- src/facilitator.js lines 86-180: `verifyPayment`, with the outer
try/catch boundary mapping any thrown exception to
`unexpected_verify_error` with an empty payer. -/
def verifyPayment (sim : SimOracle) (pp : PaymentPayload) (pr : PaymentRequirements) :
    VerifyResult :=
  match verifyBody sim pp pr with
  | .ok result => result
  | .error _ => invalidResult "unexpected_verify_error" ""

/-- Outcome of one rule of the spec's ordered chain. -/
inductive RuleOutcome
  | pass
  | fail (reason : String)
deriving DecidableEq

/-- A rule of the spec's chain over a decoded payment: it may pass, fail
with a reason, or throw. -/
abbrev VerifyRule := DecodedPayment → PaymentRequirements → Except String RuleOutcome

/-- Spec rule 4: the decoded payload must carry an entry-function call. -/
def ruleEntryFunctionPresent : VerifyRule := fun d _ =>
  match d.entryFunction with
  | none => .ok (.fail "invalid_payment_missing_entry_function")
  | some _ => .ok .pass

/-- Spec rule 5: the entry function must match the canonical
fungible-asset transfer identity `0x1::primary_fungible_store::transfer`. -/
def ruleCanonicalIdentity : VerifyRule := fun d _ =>
  match d.entryFunction with
  | none => .ok .pass
  | some ef =>
      if ef.module_address = 1 ∧ ef.module_name = "primary_fungible_store" ∧
         ef.function_name = "transfer" then .ok .pass
      else .ok (.fail "invalid_payment_wrong_function")

/-- Spec rule 6: the type-argument count must equal exactly 1. -/
def ruleTypeArgCount : VerifyRule := fun d _ =>
  match d.entryFunction with
  | none => .ok .pass
  | some ef =>
      if ef.type_args.length = 1 then .ok .pass
      else .ok (.fail "invalid_payment_wrong_type_args")

/-- Spec rule 7: the positional-argument count must equal exactly 3. -/
def ruleArgCount : VerifyRule := fun d _ =>
  match d.entryFunction with
  | none => .ok .pass
  | some ef =>
      if ef.args.length = 3 then .ok .pass
      else .ok (.fail "invalid_payment_wrong_args")

/-- Spec rule 8: argument 0 decoded as an address must equal the
requirements' `asset`. -/
def ruleAssetMatches : VerifyRule := fun d pr =>
  match d.entryFunction with
  | none => .ok .pass
  | some ef =>
    match addrFromBytes (ef.args.getD 0 []) with
    | .error e => .error e
    | .ok faAddress =>
      match parseAddressString pr.asset with
      | .error e => .error e
      | .ok expected =>
          if faAddress = expected then .ok .pass
          else .ok (.fail "invalid_payment_asset_mismatch")

/-- Spec rule 9: argument 1 decoded as an address must equal the
requirements' `payTo`. -/
def ruleRecipientMatches : VerifyRule := fun d pr =>
  match d.entryFunction with
  | none => .ok .pass
  | some ef =>
    match addrFromBytes (ef.args.getD 1 []) with
    | .error e => .error e
    | .ok recipient =>
      match parseAddressString pr.payTo with
      | .error e => .error e
      | .ok expected =>
          if recipient = expected then .ok .pass
          else .ok (.fail "invalid_payment_recipient_mismatch")

/-- Spec rule 10: argument 2 decoded as an unsigned 64-bit integer and
re-encoded as its canonical base-10 string must be string-identical to
the requirements' `amount`. -/
def ruleAmountMatches : VerifyRule := fun d pr =>
  match d.entryFunction with
  | none => .ok .pass
  | some ef =>
    match deserializeU64 (ef.args.getD 2 []) with
    | .error e => .error e
    | .ok amountValue =>
        if Nat.repr amountValue = pr.amount then .ok .pass
        else .ok (.fail "invalid_payment_amount_mismatch")

/-- Spec rule 11: submit the decoded transaction plus the extracted
public-key material to the simulation collaborator; a non-success outcome
fails with `simulation_failed: <status>`, a thrown failure with
`simulation_error: <message>`. -/
def ruleSimulation (sim : SimOracle) : VerifyRule := fun d _ =>
  match sim (extractPublicKey d.senderAuthenticator) d.transaction with
  | .thrown message => .ok (.fail ("simulation_error: " ++ message))
  | .result r =>
      if r.success then .ok .pass
      else .ok (.fail ("simulation_failed: " ++ r.vm_status))

/-- Run an ordered rule chain, short-circuiting at the first failing rule
so that exactly one reason is reported; a thrown rule propagates. -/
def runRules (d : DecodedPayment) (pr : PaymentRequirements) :
    List VerifyRule → Except String (Option String)
  | [] => .ok none
  | rule :: rest =>
    match rule d pr with
    | .error e => .error e
    | .ok (.fail reason) => .ok (some reason)
    | .ok .pass => runRules d pr rest

/-- The spec's rules 4-11 in their fixed order. -/
def decodedRules (sim : SimOracle) : List VerifyRule :=
  [ruleEntryFunctionPresent, ruleCanonicalIdentity, ruleTypeArgCount, ruleArgCount,
   ruleAssetMatches, ruleRecipientMatches, ruleAmountMatches, ruleSimulation sim]

/-- The payer string attached from rule 4 onward: the decoded sender. -/
def senderPayer (d : DecodedPayment) : String :=
  toShortString d.transaction.rawTransaction.sender

/-- Specification-side verify body (written from the spec's words, for the
refinement claim): rules 1-2 with an empty payer, envelope decode, then
the ordered short-circuiting chain of rules 4-11 with the decoded payer. -/
def specChainBody (sim : SimOracle) (pp : PaymentPayload) (pr : PaymentRequirements) :
    Except String VerifyResult :=
  if pp.accepted.scheme ≠ "exact" ∨ pr.scheme ≠ "exact" then
    .ok (invalidResult "unsupported_scheme" "")
  else if pp.accepted.network ≠ pr.network then
    .ok (invalidResult "network_mismatch" "")
  else
    match deserializeAptosPayment pp.payload.transaction with
    | .error e => .error e
    | .ok d =>
      match runRules d pr (decodedRules sim) with
      | .error e => .error e
      | .ok (some reason) => .ok (invalidResult reason (senderPayer d))
      | .ok none => .ok (validResult (senderPayer d))

/-- Specification-side verify (written from the spec's words): the rule
chain with the outer boundary mapping any thrown exception to
`unexpected_verify_error` with an empty payer. -/
def specVerifyChain (sim : SimOracle) (pp : PaymentPayload) (pr : PaymentRequirements) :
    VerifyResult :=
  match specChainBody sim pp pr with
  | .ok result => result
  | .error _ => invalidResult "unexpected_verify_error" ""

/-- A pending transaction as returned by the submission collaborator. -/
structure PendingTransaction where
  hash : String
deriving DecidableEq

/-- A fee-payer co-signature produced by the sponsor signing capability. -/
abbrev SponsorSignature := String

/-- A call to the submission collaborator: with the sender's proof alone,
or with both the sender's proof and a fee-payer co-signature. -/
inductive SubmitCall
  | withFeePayer (transaction : SimpleTransaction) (senderAuthenticator : AccountAuthenticator)
      (feePayerAuthenticator : SponsorSignature)
  | senderOnly (transaction : SimpleTransaction) (senderAuthenticator : AccountAuthenticator)
deriving DecidableEq

/-- A ledger interaction performed by `settlePayment`, in call order. -/
inductive LedgerEffect
  | submitted (call : SubmitCall)
  | waited (transactionHash : String)
deriving DecidableEq

/-- The external ledger collaborator consumed by settlement. -/
structure Ledger where
  simulate : SimOracle
  submit : SubmitCall → Except String PendingTransaction
  waitForTransaction : String → Except String Unit

/-- The operator's process-wide context: the fee-payer account's address
and the sponsor signing capability (`aptos.transaction.signAsFeePayer`
with the fee-payer account). -/
structure FacilitatorCtx where
  feePayerAddress : Addr
  signAsFeePayer : SimpleTransaction → SponsorSignature

/-- The settle endpoint's result value. -/
structure SettleResult where
  success : Bool
  transaction : String
  network : String
  payer : String
  errorReason : Option String
deriving DecidableEq

/-- JavaScript `x || dflt` on an optional string: the default replaces a
missing or empty (falsy) string. -/
def jsStringOr (s : Option String) (dflt : String) : String :=
  match s with
  | some v => if v = "" then dflt else v
  | none => dflt

/-- src/facilitator.js line 201: `paymentRequirements.extra?.sponsored === true`. -/
def isSponsored (pr : PaymentRequirements) : Bool :=
  match pr.extra with
  | some extra =>
      match extra.sponsored with
      | some true => true
      | _ => false
  | none => false

/-- src/facilitator.js lines 214-235 and 237-246: submit the transaction,
await confirmation, and map either thrown failure to
`transaction_failed: <message>`; also records the ledger calls made. -/
def submitAndConfirm (ledger : Ledger) (acceptedNetwork verifyPayer senderAddress : String)
    (call : SubmitCall) : SettleResult × List LedgerEffect :=
  match ledger.submit call with
  | .error e =>
      ({ success := false, errorReason := some ("transaction_failed: " ++ e), transaction := "",
         network := acceptedNetwork, payer := jsStringOr (some verifyPayer) "" },
       [LedgerEffect.submitted call])
  | .ok pendingTxn =>
    match ledger.waitForTransaction pendingTxn.hash with
    | .error e =>
        ({ success := false, errorReason := some ("transaction_failed: " ++ e), transaction := "",
           network := acceptedNetwork, payer := jsStringOr (some verifyPayer) "" },
         [LedgerEffect.submitted call, LedgerEffect.waited pendingTxn.hash])
    | .ok _ =>
        ({ success := true, transaction := pendingTxn.hash, network := acceptedNetwork,
           payer := senderAddress, errorReason := none },
         [LedgerEffect.submitted call, LedgerEffect.waited pendingTxn.hash])

/-- src/facilitator.js lines 185-247: `settlePayment`.  It first re-runs
`verifyPayment`; an invalid result terminates with the same reason (the
source tests `!verifyResult.isValid` first, written here as the positive
branch second).  Otherwise it re-decodes the envelope, and for sponsored
requirements sets the fee-payer address on the decoded transaction and
co-signs as fee payer before submitting with both proofs; non-sponsored
requirements are submitted with the sender's proof alone.  The second
component lists the ledger calls performed. -/
def settlePayment (ctx : FacilitatorCtx) (ledger : Ledger) (pp : PaymentPayload)
    (pr : PaymentRequirements) : SettleResult × List LedgerEffect :=
  let verifyResult := verifyPayment ledger.simulate pp pr
  if verifyResult.isValid then
    match deserializeAptosPayment pp.payload.transaction with
    | .error e =>
        ({ success := false, errorReason := some ("transaction_failed: " ++ e), transaction := "",
           network := pp.accepted.network, payer := jsStringOr (some verifyResult.payer) "" }, [])
    | .ok d =>
      let senderAddress := toLongString d.transaction.rawTransaction.sender
      if isSponsored pr then
        let sponsoredTransaction := { d.transaction with feePayerAddress := some ctx.feePayerAddress }
        let feePayerAuthenticator := ctx.signAsFeePayer sponsoredTransaction
        submitAndConfirm ledger pp.accepted.network verifyResult.payer senderAddress
          (SubmitCall.withFeePayer sponsoredTransaction d.senderAuthenticator feePayerAuthenticator)
      else
        submitAndConfirm ledger pp.accepted.network verifyResult.payer senderAddress
          (SubmitCall.senderOnly d.transaction d.senderAuthenticator)
  else
    ({ success := false, network := pp.accepted.network, transaction := "",
       errorReason := some (jsStringOr verifyResult.invalidReason "verification_failed"),
       payer := jsStringOr (some verifyResult.payer) "" }, [])

theorem toShortString_ne_empty (a : Addr) : toShortString a ≠ "" := by
  intro h
  have h2 := congrArg String.length h
  unfold toShortString toLongString at h2
  split at h2 <;> simp [String.length] at h2

theorem ne_empty_of_prefix (p s : String) (hp : 0 < p.length) : p ++ s ≠ "" := by
  intro h
  have h2 := congrArg String.length h
  rw [String.length_append] at h2
  simp at h2
  omega

theorem decodedCheck_eq_chain (sim : SimOracle) (pr : PaymentRequirements) (d : DecodedPayment) :
    decodedCheck sim pr d =
      match runRules d pr (decodedRules sim) with
      | .error e => .error e
      | .ok (some reason) => .ok (invalidResult reason (senderPayer d))
      | .ok none => .ok (validResult (senderPayer d)) := by
  cases hEF : d.entryFunction with
  | none =>
      simp [decodedCheck, runRules, decodedRules, ruleEntryFunctionPresent, hEF, senderPayer]
  | some ef =>
      by_cases hid : ef.module_address = 1 ∧ ef.module_name = "primary_fungible_store" ∧
          ef.function_name = "transfer"
      · by_cases hta : ef.type_args.length = 1
        · rcases hargs : ef.args with _ | ⟨a0, _ | ⟨a1, _ | ⟨a2, _ | ⟨a3, rest⟩⟩⟩⟩
          · simp [decodedCheck, runRules, decodedRules, ruleEntryFunctionPresent,
              ruleCanonicalIdentity, ruleTypeArgCount, ruleArgCount, hEF, hid, hta, hargs,
              senderPayer]
          · simp [decodedCheck, runRules, decodedRules, ruleEntryFunctionPresent,
              ruleCanonicalIdentity, ruleTypeArgCount, ruleArgCount, hEF, hid, hta, hargs,
              senderPayer]
          · simp [decodedCheck, runRules, decodedRules, ruleEntryFunctionPresent,
              ruleCanonicalIdentity, ruleTypeArgCount, ruleArgCount, hEF, hid, hta, hargs,
              senderPayer]
          · cases haf : addrFromBytes a0 with
            | error e =>
                simp [decodedCheck, checkArgsAndSimulate, runRules, decodedRules,
                  ruleEntryFunctionPresent, ruleCanonicalIdentity, ruleTypeArgCount, ruleArgCount,
                  ruleAssetMatches, hEF, hid, hta, hargs, haf, senderPayer]
            | ok faAddress =>
              cases hpa : parseAddressString pr.asset with
              | error e =>
                  simp [decodedCheck, checkArgsAndSimulate, runRules, decodedRules,
                    ruleEntryFunctionPresent, ruleCanonicalIdentity, ruleTypeArgCount,
                    ruleArgCount, ruleAssetMatches, hEF, hid, hta, hargs, haf, hpa, senderPayer]
              | ok expectedAsset =>
                by_cases hfa : faAddress = expectedAsset
                · cases hrb : addrFromBytes a1 with
                  | error e =>
                      simp [decodedCheck, checkArgsAndSimulate, runRules, decodedRules,
                        ruleEntryFunctionPresent, ruleCanonicalIdentity, ruleTypeArgCount,
                        ruleArgCount, ruleAssetMatches, ruleRecipientMatches, hEF, hid, hta,
                        hargs, haf, hpa, hfa, hrb, senderPayer]
                  | ok recipientAddress =>
                    cases hpt : parseAddressString pr.payTo with
                    | error e =>
                        simp [decodedCheck, checkArgsAndSimulate, runRules, decodedRules,
                          ruleEntryFunctionPresent, ruleCanonicalIdentity, ruleTypeArgCount,
                          ruleArgCount, ruleAssetMatches, ruleRecipientMatches, hEF, hid, hta,
                          hargs, haf, hpa, hfa, hrb, hpt, senderPayer]
                    | ok expectedPayTo =>
                      by_cases hrc : recipientAddress = expectedPayTo
                      · cases hu64 : deserializeU64 a2 with
                        | error e =>
                            simp [decodedCheck, checkArgsAndSimulate, runRules, decodedRules,
                              ruleEntryFunctionPresent, ruleCanonicalIdentity, ruleTypeArgCount,
                              ruleArgCount, ruleAssetMatches, ruleRecipientMatches,
                              ruleAmountMatches, hEF, hid, hta, hargs, haf, hpa, hfa, hrb, hpt,
                              hrc, hu64, senderPayer]
                        | ok amountValue =>
                          by_cases ham : Nat.repr amountValue = pr.amount
                          · cases hsim : sim (extractPublicKey d.senderAuthenticator) d.transaction with
                            | thrown message =>
                                simp [decodedCheck, checkArgsAndSimulate, simulationCheck,
                                  runRules, decodedRules, ruleEntryFunctionPresent,
                                  ruleCanonicalIdentity, ruleTypeArgCount, ruleArgCount,
                                  ruleAssetMatches, ruleRecipientMatches, ruleAmountMatches,
                                  ruleSimulation, hEF, hid, hta, hargs, haf, hpa, hfa, hrb,
                                  hpt, hrc, hu64, ham, hsim, senderPayer]
                            | result r =>
                                by_cases hs : r.success
                                · simp [decodedCheck, checkArgsAndSimulate, simulationCheck,
                                    runRules, decodedRules, ruleEntryFunctionPresent,
                                    ruleCanonicalIdentity, ruleTypeArgCount, ruleArgCount,
                                    ruleAssetMatches, ruleRecipientMatches, ruleAmountMatches,
                                    ruleSimulation, hEF, hid, hta, hargs, haf, hpa, hfa, hrb,
                                    hpt, hrc, hu64, ham, hsim, hs, senderPayer]
                                · simp [decodedCheck, checkArgsAndSimulate, simulationCheck,
                                    runRules, decodedRules, ruleEntryFunctionPresent,
                                    ruleCanonicalIdentity, ruleTypeArgCount, ruleArgCount,
                                    ruleAssetMatches, ruleRecipientMatches, ruleAmountMatches,
                                    ruleSimulation, hEF, hid, hta, hargs, haf, hpa, hfa, hrb,
                                    hpt, hrc, hu64, ham, hsim, hs, senderPayer]
                          · simp [decodedCheck, checkArgsAndSimulate, runRules, decodedRules,
                              ruleEntryFunctionPresent, ruleCanonicalIdentity, ruleTypeArgCount,
                              ruleArgCount, ruleAssetMatches, ruleRecipientMatches,
                              ruleAmountMatches, hEF, hid, hta, hargs, haf, hpa, hfa, hrb, hpt,
                              hrc, hu64, ham, senderPayer]
                      · simp [decodedCheck, checkArgsAndSimulate, runRules, decodedRules,
                          ruleEntryFunctionPresent, ruleCanonicalIdentity, ruleTypeArgCount,
                          ruleArgCount, ruleAssetMatches, ruleRecipientMatches, hEF, hid, hta,
                          hargs, haf, hpa, hfa, hrb, hpt, hrc, senderPayer]
                · simp [decodedCheck, checkArgsAndSimulate, runRules, decodedRules,
                    ruleEntryFunctionPresent, ruleCanonicalIdentity, ruleTypeArgCount,
                    ruleArgCount, ruleAssetMatches, hEF, hid, hta, hargs, haf, hpa, hfa,
                    senderPayer]
          · simp [decodedCheck, runRules, decodedRules, ruleEntryFunctionPresent,
              ruleCanonicalIdentity, ruleTypeArgCount, ruleArgCount, hEF, hid, hta, hargs,
              senderPayer]
        · simp [decodedCheck, runRules, decodedRules, ruleEntryFunctionPresent,
            ruleCanonicalIdentity, ruleTypeArgCount, hEF, hid, hta, senderPayer]
      · simp [decodedCheck, runRules, decodedRules, ruleEntryFunctionPresent,
          ruleCanonicalIdentity, hEF, hid, senderPayer]

/-- The reasons produced by the structural rules 4-10. -/
def structuralReasons : List String :=
  ["invalid_payment_missing_entry_function", "invalid_payment_wrong_function",
   "invalid_payment_wrong_type_args", "invalid_payment_wrong_args",
   "invalid_payment_asset_mismatch", "invalid_payment_recipient_mismatch",
   "invalid_payment_amount_mismatch"]

theorem decodedCheck_cases (sim : SimOracle) (pr : PaymentRequirements) (d : DecodedPayment) :
    (∃ e, decodedCheck sim pr d = Except.error e) ∨
    decodedCheck sim pr d = Except.ok (validResult (senderPayer d)) ∨
    ∃ reason, decodedCheck sim pr d = Except.ok (invalidResult reason (senderPayer d)) ∧
      (reason ∈ structuralReasons ∨
       ∃ tail, reason = "simulation_failed: " ++ tail ∨ reason = "simulation_error: " ++ tail) := by
  cases hEF : d.entryFunction with
  | none =>
      refine Or.inr (Or.inr ⟨"invalid_payment_missing_entry_function", ?_, Or.inl (by simp [structuralReasons])⟩)
      simp [decodedCheck, hEF, senderPayer]
  | some ef =>
      by_cases hid : ef.module_address = 1 ∧ ef.module_name = "primary_fungible_store" ∧
          ef.function_name = "transfer"
      · by_cases hta : ef.type_args.length = 1
        · rcases hargs : ef.args with _ | ⟨a0, _ | ⟨a1, _ | ⟨a2, _ | ⟨a3, rest⟩⟩⟩⟩
          · refine Or.inr (Or.inr ⟨"invalid_payment_wrong_args", ?_, Or.inl (by simp [structuralReasons])⟩)
            simp [decodedCheck, hEF, hid, hta, hargs, senderPayer]
          · refine Or.inr (Or.inr ⟨"invalid_payment_wrong_args", ?_, Or.inl (by simp [structuralReasons])⟩)
            simp [decodedCheck, hEF, hid, hta, hargs, senderPayer]
          · refine Or.inr (Or.inr ⟨"invalid_payment_wrong_args", ?_, Or.inl (by simp [structuralReasons])⟩)
            simp [decodedCheck, hEF, hid, hta, hargs, senderPayer]
          · cases haf : addrFromBytes a0 with
            | error e =>
                refine Or.inl ⟨e, ?_⟩
                simp [decodedCheck, checkArgsAndSimulate, hEF, hid, hta, hargs, haf, senderPayer]
            | ok faAddress =>
              cases hpa : parseAddressString pr.asset with
              | error e =>
                  refine Or.inl ⟨e, ?_⟩
                  simp [decodedCheck, checkArgsAndSimulate, hEF, hid, hta, hargs, haf, hpa,
                    senderPayer]
              | ok expectedAsset =>
                by_cases hfa : faAddress = expectedAsset
                · cases hrb : addrFromBytes a1 with
                  | error e =>
                      refine Or.inl ⟨e, ?_⟩
                      simp [decodedCheck, checkArgsAndSimulate, hEF, hid, hta, hargs, haf, hpa,
                        hfa, hrb, senderPayer]
                  | ok recipientAddress =>
                    cases hpt : parseAddressString pr.payTo with
                    | error e =>
                        refine Or.inl ⟨e, ?_⟩
                        simp [decodedCheck, checkArgsAndSimulate, hEF, hid, hta, hargs, haf,
                          hpa, hfa, hrb, hpt, senderPayer]
                    | ok expectedPayTo =>
                      by_cases hrc : recipientAddress = expectedPayTo
                      · cases hu64 : deserializeU64 a2 with
                        | error e =>
                            refine Or.inl ⟨e, ?_⟩
                            simp [decodedCheck, checkArgsAndSimulate, hEF, hid, hta, hargs,
                              haf, hpa, hfa, hrb, hpt, hrc, hu64, senderPayer]
                        | ok amountValue =>
                          by_cases ham : Nat.repr amountValue = pr.amount
                          · cases hsim : sim (extractPublicKey d.senderAuthenticator) d.transaction with
                            | thrown message =>
                                refine Or.inr (Or.inr ⟨"simulation_error: " ++ message, ?_,
                                  Or.inr ⟨message, Or.inr rfl⟩⟩)
                                simp [decodedCheck, checkArgsAndSimulate, simulationCheck, hEF,
                                  hid, hta, hargs, haf, hpa, hfa, hrb, hpt, hrc, hu64, ham,
                                  hsim, senderPayer]
                            | result r =>
                                by_cases hs : r.success
                                · refine Or.inr (Or.inl ?_)
                                  simp [decodedCheck, checkArgsAndSimulate, simulationCheck,
                                    hEF, hid, hta, hargs, haf, hpa, hfa, hrb, hpt, hrc, hu64,
                                    ham, hsim, hs, senderPayer]
                                · refine Or.inr (Or.inr ⟨"simulation_failed: " ++ r.vm_status, ?_,
                                    Or.inr ⟨r.vm_status, Or.inl rfl⟩⟩)
                                  simp [decodedCheck, checkArgsAndSimulate, simulationCheck,
                                    hEF, hid, hta, hargs, haf, hpa, hfa, hrb, hpt, hrc, hu64,
                                    ham, hsim, hs, senderPayer]
                          · refine Or.inr (Or.inr ⟨"invalid_payment_amount_mismatch", ?_,
                              Or.inl (by simp [structuralReasons])⟩)
                            simp [decodedCheck, checkArgsAndSimulate, hEF, hid, hta, hargs,
                              haf, hpa, hfa, hrb, hpt, hrc, hu64, ham, senderPayer]
                      · refine Or.inr (Or.inr ⟨"invalid_payment_recipient_mismatch", ?_,
                          Or.inl (by simp [structuralReasons])⟩)
                        simp [decodedCheck, checkArgsAndSimulate, hEF, hid, hta, hargs, haf,
                          hpa, hfa, hrb, hpt, hrc, senderPayer]
                · refine Or.inr (Or.inr ⟨"invalid_payment_asset_mismatch", ?_,
                    Or.inl (by simp [structuralReasons])⟩)
                  simp [decodedCheck, checkArgsAndSimulate, hEF, hid, hta, hargs, haf, hpa,
                    hfa, senderPayer]
          · refine Or.inr (Or.inr ⟨"invalid_payment_wrong_args", ?_, Or.inl (by simp [structuralReasons])⟩)
            simp [decodedCheck, hEF, hid, hta, hargs, senderPayer]
        · refine Or.inr (Or.inr ⟨"invalid_payment_wrong_type_args", ?_, Or.inl (by simp [structuralReasons])⟩)
          simp [decodedCheck, hEF, hid, hta, senderPayer]
      · refine Or.inr (Or.inr ⟨"invalid_payment_wrong_function", ?_, Or.inl (by simp [structuralReasons])⟩)
        simp [decodedCheck, hEF, hid, senderPayer]

theorem verify_cases (sim : SimOracle) (pp : PaymentPayload) (pr : PaymentRequirements) :
    verifyPayment sim pp pr = invalidResult "unsupported_scheme" "" ∨
    verifyPayment sim pp pr = invalidResult "network_mismatch" "" ∨
    verifyPayment sim pp pr = invalidResult "unexpected_verify_error" "" ∨
    (pp.accepted.scheme = "exact" ∧ pr.scheme = "exact" ∧ pp.accepted.network = pr.network ∧
     ∃ d, deserializeAptosPayment pp.payload.transaction = Except.ok d ∧
       (verifyPayment sim pp pr = validResult (senderPayer d) ∨
        ∃ reason, verifyPayment sim pp pr = invalidResult reason (senderPayer d) ∧
          (reason ∈ structuralReasons ∨
           ∃ tail, reason = "simulation_failed: " ++ tail ∨
                   reason = "simulation_error: " ++ tail))) := by
  by_cases h1 : pp.accepted.scheme ≠ "exact" ∨ pr.scheme ≠ "exact"
  · exact Or.inl (by simp [verifyPayment, verifyBody, h1])
  · push_neg at h1
    by_cases h2 : pp.accepted.network ≠ pr.network
    · exact Or.inr (Or.inl (by simp [verifyPayment, verifyBody, h1.1, h1.2, h2]))
    · push_neg at h2
      cases hd : deserializeAptosPayment pp.payload.transaction with
      | error e =>
          exact Or.inr (Or.inr (Or.inl (by simp [verifyPayment, verifyBody, h1.1, h1.2, h2, hd])))
      | ok d =>
        have hv : verifyPayment sim pp pr =
            match decodedCheck sim pr d with
            | .ok result => result
            | .error _ => invalidResult "unexpected_verify_error" "" := by
          simp [verifyPayment, verifyBody, h1.1, h1.2, h2, hd]
        rcases decodedCheck_cases sim pr d with ⟨e, he⟩ | hok | ⟨reason, hr, hshape⟩
        · exact Or.inr (Or.inr (Or.inl (by rw [hv, he])))
        · exact Or.inr (Or.inr (Or.inr ⟨h1.1, h1.2, h2, d, rfl, Or.inl (by rw [hv, hok])⟩))
        · exact Or.inr (Or.inr (Or.inr ⟨h1.1, h1.2, h2, d, rfl,
            Or.inr ⟨reason, by rw [hv, hr], hshape⟩⟩))

theorem string_append_ne_of_head_ne (p s q : String) (c c2 : Char)
    (hp : p.data.head? = some c) (hq : q.data.head? = some c2) (hne : c ≠ c2) :
    p ++ s ≠ q := by
  intro he
  have h3 := congrArg (fun t => t.data.head?) he
  simp only [String.data_append] at h3
  cases hdp : p.data with
  | nil => rw [hdp] at hp; simp at hp
  | cons x xs =>
      rw [hdp] at hp h3
      simp at hp h3
      rw [hq] at h3
      simp at h3
      exact hne (hp ▸ h3)

theorem verifyPayment_eq_chain (sim : SimOracle) (pp : PaymentPayload)
    (pr : PaymentRequirements) :
    verifyPayment sim pp pr = specVerifyChain sim pp pr := by
  have hbody : verifyBody sim pp pr = specChainBody sim pp pr := by
    unfold verifyBody specChainBody
    by_cases h1 : pp.accepted.scheme ≠ "exact" ∨ pr.scheme ≠ "exact"
    · simp [h1]
    · by_cases h2 : pp.accepted.network ≠ pr.network
      · simp [h1, h2]
      · simp only [if_neg h1, if_neg h2]
        cases hd : deserializeAptosPayment pp.payload.transaction with
        | error e => rfl
        | ok d => exact decodedCheck_eq_chain sim pr d
  unfold verifyPayment specVerifyChain
  rw [hbody]

theorem verify_reduces (sim : SimOracle) (pp : PaymentPayload) (pr : PaymentRequirements)
    (d : DecodedPayment) (h1 : pp.accepted.scheme = "exact") (h2 : pr.scheme = "exact")
    (h3 : pp.accepted.network = pr.network)
    (hd : deserializeAptosPayment pp.payload.transaction = Except.ok d) :
    verifyPayment sim pp pr =
      match decodedCheck sim pr d with
      | .ok result => result
      | .error _ => invalidResult "unexpected_verify_error" "" := by
  simp [verifyPayment, verifyBody, h1, h2, h3, hd]

theorem decodedCheck_reaches_amount (sim : SimOracle) (pr : PaymentRequirements)
    (d : DecodedPayment) (ef : EntryFunction) (a0 a1 a2 : List Nat) (x y n : Nat)
    (hEF : d.entryFunction = some ef)
    (hid : ef.module_address = 1 ∧ ef.module_name = "primary_fungible_store" ∧
           ef.function_name = "transfer")
    (hta : ef.type_args.length = 1)
    (hargs : ef.args = [a0, a1, a2])
    (haf : addrFromBytes a0 = Except.ok x) (hpa : parseAddressString pr.asset = Except.ok x)
    (hrb : addrFromBytes a1 = Except.ok y) (hpt : parseAddressString pr.payTo = Except.ok y)
    (hu64 : deserializeU64 a2 = Except.ok n) :
    decodedCheck sim pr d =
      if Nat.repr n = pr.amount then Except.ok (simulationCheck sim d (senderPayer d))
      else Except.ok (invalidResult "invalid_payment_amount_mismatch" (senderPayer d)) := by
  by_cases ham : Nat.repr n = pr.amount
  · simp [decodedCheck, checkArgsAndSimulate, hEF, hid, hta, hargs, haf, hpa, hrb, hpt, hu64,
      ham, senderPayer]
  · simp [decodedCheck, checkArgsAndSimulate, hEF, hid, hta, hargs, haf, hpa, hrb, hpt, hu64,
      ham, senderPayer]

theorem verify_valid_facts (sim : SimOracle) (pp : PaymentPayload) (pr : PaymentRequirements)
    (h : (verifyPayment sim pp pr).isValid = true) :
    pp.accepted.scheme = "exact" ∧ pr.scheme = "exact" ∧ pp.accepted.network = pr.network ∧
    ∃ d, deserializeAptosPayment pp.payload.transaction = Except.ok d ∧
      verifyPayment sim pp pr = validResult (senderPayer d) := by
  rcases verify_cases sim pp pr with h1 | h1 | h1 | ⟨hs1, hs2, hn, d, hd, hres⟩
  · rw [h1] at h; simp [invalidResult] at h
  · rw [h1] at h; simp [invalidResult] at h
  · rw [h1] at h; simp [invalidResult] at h
  · rcases hres with hok | ⟨reason, hr, _⟩
    · exact ⟨hs1, hs2, hn, d, hd, hok⟩
    · rw [hr] at h; simp [invalidResult] at h

theorem verify_reason_ne_empty (sim : SimOracle) (pp : PaymentPayload)
    (pr : PaymentRequirements) (s : String)
    (h : (verifyPayment sim pp pr).invalidReason = some s) : s ≠ "" := by
  rcases verify_cases sim pp pr with h1 | h1 | h1 | ⟨_, _, _, d, _, hres⟩
  · rw [h1] at h; simp [invalidResult] at h; subst h; decide
  · rw [h1] at h; simp [invalidResult] at h; subst h; decide
  · rw [h1] at h; simp [invalidResult] at h; subst h; decide
  · rcases hres with hok | ⟨reason, hr, hshape⟩
    · rw [hok] at h; simp [validResult] at h
    · rw [hr] at h
      simp [invalidResult] at h
      subst h
      rcases hshape with hmem | ⟨tail, ht | ht⟩
      · fin_cases hmem <;> decide
      · subst ht; exact ne_empty_of_prefix _ _ (by decide)
      · subst ht; exact ne_empty_of_prefix _ _ (by decide)

theorem jsStringOr_some_empty (v : String) : jsStringOr (some v) "" = v := by
  by_cases h : v = "" <;> simp [jsStringOr, h]

theorem submitAndConfirm_trace_head (ledger : Ledger) (n vp sa : String) (call : SubmitCall) :
    (submitAndConfirm ledger n vp sa call).2.head? = some (LedgerEffect.submitted call) := by
  cases hs : ledger.submit call with
  | error e => simp [submitAndConfirm, hs]
  | ok p =>
      cases hw : ledger.waitForTransaction p.hash with
      | error e => simp [submitAndConfirm, hs, hw]
      | ok u => simp [submitAndConfirm, hs, hw]

theorem submitAndConfirm_submitted_mem (ledger : Ledger) (n vp sa : String) (call : SubmitCall)
    (c : SubmitCall) (h : LedgerEffect.submitted c ∈ (submitAndConfirm ledger n vp sa call).2) :
    c = call := by
  cases hs : ledger.submit call with
  | error e => simp [submitAndConfirm, hs] at h; exact h
  | ok p =>
      cases hw : ledger.waitForTransaction p.hash with
      | error e => simp [submitAndConfirm, hs, hw] at h; exact h
      | ok u => simp [submitAndConfirm, hs, hw] at h; exact h

theorem submitAndConfirm_success (ledger : Ledger) (n vp sa : String) (call : SubmitCall)
    (h : (submitAndConfirm ledger n vp sa call).1.success = true) :
    ∃ p, ledger.submit call = Except.ok p ∧
      submitAndConfirm ledger n vp sa call =
        ({ success := true, transaction := p.hash, network := n, payer := sa,
           errorReason := none }, [LedgerEffect.submitted call, LedgerEffect.waited p.hash]) := by
  cases hs : ledger.submit call with
  | error e => simp [submitAndConfirm, hs] at h
  | ok p =>
      cases hw : ledger.waitForTransaction p.hash with
      | error e => simp [submitAndConfirm, hs, hw] at h
      | ok u => refine ⟨p, rfl, ?_⟩; simp [submitAndConfirm, hs, hw]

theorem settle_invalid_reduces (ctx : FacilitatorCtx) (ledger : Ledger) (pp : PaymentPayload)
    (pr : PaymentRequirements)
    (hinvalid : (verifyPayment ledger.simulate pp pr).isValid = false) :
    settlePayment ctx ledger pp pr =
      ({ success := false, network := pp.accepted.network, transaction := "",
         errorReason :=
           some (jsStringOr (verifyPayment ledger.simulate pp pr).invalidReason "verification_failed"),
         payer := jsStringOr (some (verifyPayment ledger.simulate pp pr).payer) "" }, []) := by
  simp [settlePayment, hinvalid]

theorem settle_valid_reduces (ctx : FacilitatorCtx) (ledger : Ledger) (pp : PaymentPayload)
    (pr : PaymentRequirements) (d : DecodedPayment)
    (hvalid : (verifyPayment ledger.simulate pp pr).isValid = true)
    (hd : deserializeAptosPayment pp.payload.transaction = Except.ok d) :
    settlePayment ctx ledger pp pr =
      (if isSponsored pr then
        submitAndConfirm ledger pp.accepted.network (verifyPayment ledger.simulate pp pr).payer
          (toLongString d.transaction.rawTransaction.sender)
          (SubmitCall.withFeePayer { d.transaction with feePayerAddress := some ctx.feePayerAddress }
            d.senderAuthenticator
            (ctx.signAsFeePayer { d.transaction with feePayerAddress := some ctx.feePayerAddress }))
      else
        submitAndConfirm ledger pp.accepted.network (verifyPayment ledger.simulate pp pr).payer
          (toLongString d.transaction.rawTransaction.sender)
          (SubmitCall.senderOnly d.transaction d.senderAuthenticator)) := by
  simp [settlePayment, hvalid, hd]

/-- Concrete asset argument bytes: the 32-byte address 0xa. -/
def sampleAssetBytes : List Nat := List.replicate 31 0 ++ [10]

/-- Concrete recipient argument bytes: the 32-byte address 0xb. -/
def samplePayToBytes : List Nat := List.replicate 31 0 ++ [11]

/-- Concrete amount argument bytes: the little-endian u64 100. -/
def sampleAmountBytes : List Nat := [100, 0, 0, 0, 0, 0, 0, 0]

/-- A canonical transfer entry function moving 100 units of asset 0xa to 0xb. -/
def sampleEntryFunction : EntryFunction :=
  { module_address := 1, module_name := "primary_fungible_store", function_name := "transfer",
    type_args := ["0x1::fungible_asset::Metadata"],
    args := [sampleAssetBytes, samplePayToBytes, sampleAmountBytes] }

/-- A transaction from sender 0x2a carrying `sampleEntryFunction`. -/
def sampleTransaction : SimpleTransaction :=
  { rawTransaction := { sender := 42, payload := TransactionPayload.entryFunction sampleEntryFunction },
    feePayerAddress := none }

/-- An Ed25519 sender authenticator. -/
def sampleAuthenticator : AccountAuthenticator := AccountAuthenticator.ed25519 7

/-- A well-formed payment payload on scheme `exact`, network `aptos:2`. -/
def samplePayload : PaymentPayload :=
  { accepted := { scheme := "exact", network := "aptos:2" },
    payload := { transaction := Envelope.wellFormed sampleTransaction sampleAuthenticator } }

/-- Requirements matching `samplePayload`, marked sponsored. -/
def sampleRequirements : PaymentRequirements :=
  { scheme := "exact", network := "aptos:2", asset := "0xa", payTo := "0xb", amount := "100",
    extra := some { sponsored := some true } }

/-- Same requirements with the zero-padded amount string `"0100"`. -/
def paddedAmountRequirements : PaymentRequirements :=
  { sampleRequirements with amount := "0100" }

/-- Same requirements without the sponsored marking. -/
def nonSponsoredRequirements : PaymentRequirements :=
  { sampleRequirements with extra := none }

/-- A simulation oracle that always reports success. -/
def simOk : SimOracle :=
  fun _ _ => SimOutcome.result { success := true, vm_status := "Executed successfully" }

/-- A ledger whose submission and confirmation always succeed. -/
def sampleLedger : Ledger :=
  { simulate := simOk,
    submit := fun _ => Except.ok { hash := "0xabcdef" },
    waitForTransaction := fun _ => Except.ok () }

/-- A facilitator context with sponsor address 0x63. -/
def sampleCtx : FacilitatorCtx :=
  { feePayerAddress := 99, signAsFeePayer := fun _ => "sponsor-signature" }

/-- A payload whose opaque transaction field fails envelope decoding. -/
def malformedPayload : PaymentPayload :=
  { accepted := { scheme := "exact", network := "aptos:2" },
    payload := { transaction := Envelope.malformed "bad base64" } }

/-- The sample entry function redirected to a non-canonical function name. -/
def wrongFunctionEntry : EntryFunction :=
  { sampleEntryFunction with function_name := "transfer_coins" }

/-- A transaction from sender 0x2a calling the wrong function. -/
def wrongFunctionTransaction : SimpleTransaction :=
  { rawTransaction := { sender := 42, payload := TransactionPayload.entryFunction wrongFunctionEntry },
    feePayerAddress := none }

/-- A well-formed payload calling the wrong function. -/
def wrongFunctionPayload : PaymentPayload :=
  { accepted := { scheme := "exact", network := "aptos:2" },
    payload := { transaction := Envelope.wellFormed wrongFunctionTransaction sampleAuthenticator } }

/-- A legacy multi-Ed25519 authenticator (no key material extracted). -/
def multiEdAuthenticator : AccountAuthenticator := AccountAuthenticator.multiEd25519 [3, 4]

/-- The sample payload signed with the legacy multi-Ed25519 authenticator. -/
def multiEdPayload : PaymentPayload :=
  { accepted := { scheme := "exact", network := "aptos:2" },
    payload := { transaction := Envelope.wellFormed sampleTransaction multiEdAuthenticator } }

/-- Claim C1: for every payment payload and requirements pair,
`verifyPayment` applies the rule chain in the fixed order (scheme,
network, envelope decode, entry-function presence, canonical function
identity `0x1::primary_fungible_store::transfer`, type-argument count 1,
positional-argument count 3, asset address, recipient address, amount
string, simulation), short-circuits at the first failing rule so exactly
one invalid reason is reported per call, and returns `isValid: true` only
when every rule passes and the simulation collaborator reports success:
`verifyPayment` coincides with the specification's ordered
short-circuiting chain `specVerifyChain`. -/
theorem claim_C1_ordered_rule_chain (sim : SimOracle) (pp : PaymentPayload)
    (pr : PaymentRequirements) :
    verifyPayment sim pp pr = specVerifyChain sim pp pr :=
  verifyPayment_eq_chain sim pp pr

/-- Claim C5: `verifyPayment` never propagates an exception: whenever the
body of the rule chain throws (`verifyBody` returns an error), the outer
boundary returns the structured invalid result with reason
`unexpected_verify_error` and an empty payer. -/
theorem claim_C5_no_exception_propagation (sim : SimOracle) (pp : PaymentPayload)
    (pr : PaymentRequirements) (e : String)
    (h : verifyBody sim pp pr = Except.error e) :
    verifyPayment sim pp pr = invalidResult "unexpected_verify_error" "" := by
  unfold verifyPayment
  rw [h]

/-- Witness for claim C5 at a concrete input: a malformed envelope makes
the body throw, and the result is the structured `unexpected_verify_error`. -/
theorem claim_C5_witness :
    verifyBody simOk malformedPayload sampleRequirements = Except.error "bad base64" ∧
    verifyPayment simOk malformedPayload sampleRequirements =
      invalidResult "unexpected_verify_error" "" :=
  ⟨rfl, claim_C5_no_exception_propagation simOk malformedPayload sampleRequirements
    "bad base64" rfl⟩

/-- Claim C6: for every payload whose opaque transaction field fails
envelope decoding (reaching rule 3 with matching scheme and network), the
result is the generic decode-error invalid result — realized by this code
as the boundary reason `unexpected_verify_error` — with an empty payer,
independent of the simulation oracle (so no simulation side effect is
performed and no partial intent escapes). -/
theorem claim_C6_decode_failure (pp : PaymentPayload) (pr : PaymentRequirements)
    (message : String)
    (henv : pp.payload.transaction = Envelope.malformed message)
    (h1 : pp.accepted.scheme = "exact") (h2 : pr.scheme = "exact")
    (h3 : pp.accepted.network = pr.network) :
    ∀ sim : SimOracle, verifyPayment sim pp pr = invalidResult "unexpected_verify_error" "" := by
  intro sim
  simp [verifyPayment, verifyBody, h1, h2, h3, henv, deserializeAptosPayment]

/-- Witness for claim C6 at a concrete input. -/
theorem claim_C6_witness :
    verifyPayment simOk malformedPayload sampleRequirements =
      invalidResult "unexpected_verify_error" "" :=
  claim_C6_decode_failure malformedPayload sampleRequirements "bad base64" rfl rfl rfl rfl simOk

/-- Claim C2: the amount rule compares exact decimal strings.  For a
payload that reaches the amount rule with its third argument decoding to
the unsigned 64-bit value `n`: if the requirements' `amount` differs from
the canonical base-10 rendering of `n` the result is
`invalid_payment_amount_mismatch`; if it is string-identical the rule
passes and verification proceeds to simulation; and the reason
`invalid_payment_amount_mismatch` is reported exactly when the strings
differ (so `"0100"` does not match a decoded 100 even though both denote
the same integer). -/
theorem claim_C2_amount_exact_string (sim : SimOracle) (pp : PaymentPayload)
    (pr : PaymentRequirements) (txn : SimpleTransaction) (auth : AccountAuthenticator)
    (ef : EntryFunction) (a0 a1 a2 : List Nat) (x y n : Nat)
    (h1 : pp.accepted.scheme = "exact") (h2 : pr.scheme = "exact")
    (h3 : pp.accepted.network = pr.network)
    (henv : pp.payload.transaction = Envelope.wellFormed txn auth)
    (hef : txn.rawTransaction.payload = TransactionPayload.entryFunction ef)
    (hid : ef.module_address = 1 ∧ ef.module_name = "primary_fungible_store" ∧
           ef.function_name = "transfer")
    (hta : ef.type_args.length = 1) (hargs : ef.args = [a0, a1, a2])
    (haf : addrFromBytes a0 = Except.ok x) (hpa : parseAddressString pr.asset = Except.ok x)
    (hrb : addrFromBytes a1 = Except.ok y) (hpt : parseAddressString pr.payTo = Except.ok y)
    (hu64 : deserializeU64 a2 = Except.ok n) :
    (Nat.repr n ≠ pr.amount →
      verifyPayment sim pp pr =
        invalidResult "invalid_payment_amount_mismatch" (toShortString txn.rawTransaction.sender)) ∧
    (Nat.repr n = pr.amount →
      verifyPayment sim pp pr =
        simulationCheck sim ⟨txn, auth, some ef⟩ (toShortString txn.rawTransaction.sender)) ∧
    ((verifyPayment sim pp pr).invalidReason = some "invalid_payment_amount_mismatch" ↔
      Nat.repr n ≠ pr.amount) := by
  have hdec : deserializeAptosPayment pp.payload.transaction =
      Except.ok ⟨txn, auth, some ef⟩ := by
    rw [henv]
    simp [deserializeAptosPayment, hef]
  have hred := verify_reduces sim pp pr ⟨txn, auth, some ef⟩ h1 h2 h3 hdec
  have hda := decodedCheck_reaches_amount sim pr ⟨txn, auth, some ef⟩ ef a0 a1 a2 x y n rfl
    hid hta hargs haf hpa hrb hpt hu64
  have hmis : Nat.repr n ≠ pr.amount →
      verifyPayment sim pp pr =
        invalidResult "invalid_payment_amount_mismatch" (toShortString txn.rawTransaction.sender) := by
    intro hne
    rw [hred, hda, if_neg hne]
    rfl
  have hpass : Nat.repr n = pr.amount →
      verifyPayment sim pp pr =
        simulationCheck sim ⟨txn, auth, some ef⟩ (toShortString txn.rawTransaction.sender) := by
    intro heq
    rw [hred, hda, if_pos heq]
    rfl
  refine ⟨hmis, hpass, ?_, fun hne => by rw [hmis hne]; rfl⟩
  intro hinv heq
  rw [hpass heq] at hinv
  unfold simulationCheck at hinv
  rcases hsim : sim (extractPublicKey auth) txn with r | msg
  · rw [show sim (extractPublicKey (⟨txn, auth, some ef⟩ : DecodedPayment).senderAuthenticator)
        (⟨txn, auth, some ef⟩ : DecodedPayment).transaction = SimOutcome.result r from hsim] at hinv
    by_cases hs : r.success = true
    · simp [hs, validResult] at hinv
    · simp [hs, invalidResult] at hinv
      exact string_append_ne_of_head_ne "simulation_failed: " r.vm_status
        "invalid_payment_amount_mismatch" 's' 'i' (by decide) (by decide) (by decide) hinv
  · rw [show sim (extractPublicKey (⟨txn, auth, some ef⟩ : DecodedPayment).senderAuthenticator)
        (⟨txn, auth, some ef⟩ : DecodedPayment).transaction = SimOutcome.thrown msg from hsim] at hinv
    simp [invalidResult] at hinv
    exact string_append_ne_of_head_ne "simulation_error: " msg
      "invalid_payment_amount_mismatch" 's' 'i' (by decide) (by decide) (by decide) hinv

/-- Witness for claim C2 at a concrete input: amount bytes decoding to
100 against requirements amount `"0100"` yield
`invalid_payment_amount_mismatch` (and `"100"` would have matched). -/
theorem claim_C2_witness :
    verifyPayment simOk samplePayload paddedAmountRequirements =
      invalidResult "invalid_payment_amount_mismatch" (toShortString 42) ∧
    Nat.repr 100 = "100" :=
  ⟨(claim_C2_amount_exact_string simOk samplePayload paddedAmountRequirements
      sampleTransaction sampleAuthenticator sampleEntryFunction
      sampleAssetBytes samplePayToBytes sampleAmountBytes 10 11 100
      rfl rfl rfl rfl rfl ⟨rfl, rfl, rfl⟩ rfl rfl rfl rfl rfl rfl rfl).1 (by decide), rfl⟩

theorem structural_or_sim_ne (reason : String)
    (hshape : reason ∈ structuralReasons ∨
      ∃ tail, reason = "simulation_failed: " ++ tail ∨ reason = "simulation_error: " ++ tail) :
    reason ≠ "unsupported_scheme" ∧ reason ≠ "network_mismatch" ∧
    reason ≠ "unexpected_verify_error" := by
  rcases hshape with hmem | ⟨tail, ht | ht⟩
  · simp [structuralReasons] at hmem
    rcases hmem with rfl | rfl | rfl | rfl | rfl | rfl | rfl <;>
      exact ⟨by decide, by decide, by decide⟩
  · subst ht
    exact ⟨string_append_ne_of_head_ne _ _ _ 's' 'u' (by decide) (by decide) (by decide),
           string_append_ne_of_head_ne _ _ _ 's' 'n' (by decide) (by decide) (by decide),
           string_append_ne_of_head_ne _ _ _ 's' 'u' (by decide) (by decide) (by decide)⟩
  · subst ht
    exact ⟨string_append_ne_of_head_ne _ _ _ 's' 'u' (by decide) (by decide) (by decide),
           string_append_ne_of_head_ne _ _ _ 's' 'n' (by decide) (by decide) (by decide),
           string_append_ne_of_head_ne _ _ _ 's' 'u' (by decide) (by decide) (by decide)⟩

/-- Claim C7: the payer field is populated best-effort.  Failures of rules
1-2 (scheme, network) carry an empty payer; every failure whose reason is
not one of the pre-decode reasons (`unsupported_scheme`,
`network_mismatch`) or the boundary reason (`unexpected_verify_error`)
carries the non-empty sender address decoded in rule 3; and in particular
a well-formed envelope whose entry function does not match the canonical
transfer identity yields `invalid_payment_wrong_function` with a
non-empty payer. -/
theorem claim_C7_payer_best_effort (sim : SimOracle) (pp : PaymentPayload)
    (pr : PaymentRequirements) :
    ((verifyPayment sim pp pr).invalidReason = some "unsupported_scheme" ∨
     (verifyPayment sim pp pr).invalidReason = some "network_mismatch" →
       (verifyPayment sim pp pr).payer = "") ∧
    (∀ s, (verifyPayment sim pp pr).invalidReason = some s →
       s ≠ "unsupported_scheme" → s ≠ "network_mismatch" → s ≠ "unexpected_verify_error" →
       ∃ d, deserializeAptosPayment pp.payload.transaction = Except.ok d ∧
         (verifyPayment sim pp pr).payer = senderPayer d ∧
         (verifyPayment sim pp pr).payer ≠ "") ∧
    (∀ (txn : SimpleTransaction) (auth : AccountAuthenticator) (ef : EntryFunction),
       pp.accepted.scheme = "exact" → pr.scheme = "exact" →
       pp.accepted.network = pr.network →
       pp.payload.transaction = Envelope.wellFormed txn auth →
       txn.rawTransaction.payload = TransactionPayload.entryFunction ef →
       ¬ (ef.module_address = 1 ∧ ef.module_name = "primary_fungible_store" ∧
          ef.function_name = "transfer") →
       verifyPayment sim pp pr =
         invalidResult "invalid_payment_wrong_function" (toShortString txn.rawTransaction.sender) ∧
       toShortString txn.rawTransaction.sender ≠ "") := by
  have hpart3 : ∀ (txn : SimpleTransaction) (auth : AccountAuthenticator) (ef : EntryFunction),
      pp.accepted.scheme = "exact" → pr.scheme = "exact" →
      pp.accepted.network = pr.network →
      pp.payload.transaction = Envelope.wellFormed txn auth →
      txn.rawTransaction.payload = TransactionPayload.entryFunction ef →
      ¬ (ef.module_address = 1 ∧ ef.module_name = "primary_fungible_store" ∧
         ef.function_name = "transfer") →
      verifyPayment sim pp pr =
        invalidResult "invalid_payment_wrong_function" (toShortString txn.rawTransaction.sender) ∧
      toShortString txn.rawTransaction.sender ≠ "" := by
    intro txn auth ef e1 e2 e3 henv hef hnid
    have hdec : deserializeAptosPayment pp.payload.transaction =
        Except.ok ⟨txn, auth, some ef⟩ := by
      rw [henv]
      simp [deserializeAptosPayment, hef]
    have hred := verify_reduces sim pp pr ⟨txn, auth, some ef⟩ e1 e2 e3 hdec
    have hdc : decodedCheck sim pr ⟨txn, auth, some ef⟩ =
        Except.ok (invalidResult "invalid_payment_wrong_function"
          (senderPayer ⟨txn, auth, some ef⟩)) := by
      simp [decodedCheck, hnid, senderPayer]
    refine ⟨?_, toShortString_ne_empty _⟩
    rw [hred, hdc]
    rfl
  refine ⟨?_, ?_, hpart3⟩
  · intro hor
    rcases verify_cases sim pp pr with h1 | h1 | h1 | ⟨hs1, hs2, hn, d, hd, hres⟩
    · rw [h1]; rfl
    · rw [h1]; rfl
    · rw [h1]; rfl
    · rcases hres with hok | ⟨reason, hr, hshape⟩
      · rw [hok] at hor
        rcases hor with hx | hx <;> simp [validResult] at hx
      · obtain ⟨hne1, hne2, _⟩ := structural_or_sim_ne reason hshape
        rw [hr] at hor
        rcases hor with hx | hx
        · exact absurd (Option.some.inj hx) hne1
        · exact absurd (Option.some.inj hx) hne2
  · intro s hs hne1 hne2 hne3
    rcases verify_cases sim pp pr with h1 | h1 | h1 | ⟨hs1, hs2, hn, d, hd, hres⟩
    · rw [h1] at hs
      exact absurd (Option.some.inj hs).symm hne1
    · rw [h1] at hs
      exact absurd (Option.some.inj hs).symm hne2
    · rw [h1] at hs
      exact absurd (Option.some.inj hs).symm hne3
    · rcases hres with hok | ⟨reason, hr, hshape⟩
      · rw [hok] at hs
        simp [validResult] at hs
      · refine ⟨d, hd, ?_, ?_⟩
        · rw [hr]
          rfl
        · rw [hr]
          exact toShortString_ne_empty _

/-- Witness for claim C7 at a concrete input: a wrong-function payload
gives `invalid_payment_wrong_function` with the non-empty sender payer. -/
theorem claim_C7_witness :
    verifyPayment simOk wrongFunctionPayload sampleRequirements =
      invalidResult "invalid_payment_wrong_function" (toShortString 42) ∧
    toShortString 42 ≠ "" :=
  (claim_C7_payer_best_effort simOk wrongFunctionPayload sampleRequirements).2.2
    wrongFunctionTransaction sampleAuthenticator wrongFunctionEntry
    rfl rfl rfl rfl rfl (by decide)

/-- Claim C3: for settle calls that reach submission (verification passed
and the envelope re-decodes), sponsored requirements make settlement set
the decoded transaction's fee-payer address to the operator's sponsor
address, obtain the fee-payer co-signature over that fee-payer-aware
transaction, and submit with both the sender's authenticator and the
co-signature; non-sponsored requirements are submitted with the sender's
authenticator alone and no co-signature. -/
theorem claim_C3_sponsored_cosignature (ctx : FacilitatorCtx) (ledger : Ledger)
    (pp : PaymentPayload) (pr : PaymentRequirements) (d : DecodedPayment)
    (hvalid : (verifyPayment ledger.simulate pp pr).isValid = true)
    (hd : deserializeAptosPayment pp.payload.transaction = Except.ok d) :
    (isSponsored pr = true →
      (settlePayment ctx ledger pp pr).2.head? =
        some (LedgerEffect.submitted (SubmitCall.withFeePayer
          { d.transaction with feePayerAddress := some ctx.feePayerAddress }
          d.senderAuthenticator
          (ctx.signAsFeePayer { d.transaction with feePayerAddress := some ctx.feePayerAddress })))) ∧
    (isSponsored pr = false →
      (settlePayment ctx ledger pp pr).2.head? =
        some (LedgerEffect.submitted (SubmitCall.senderOnly d.transaction d.senderAuthenticator))) := by
  have hset := settle_valid_reduces ctx ledger pp pr d hvalid hd
  constructor
  · intro hs
    rw [hset, if_pos hs]
    exact submitAndConfirm_trace_head _ _ _ _ _
  · intro hs
    rw [hset, if_neg (by simp [hs])]
    exact submitAndConfirm_trace_head _ _ _ _ _

/-- Witness for claim C3 at concrete inputs: the sponsored sample submits
with the fee-payer-aware transaction and the sponsor co-signature; the
non-sponsored sample submits with the sender's authenticator alone. -/
theorem claim_C3_witness :
    (settlePayment sampleCtx sampleLedger samplePayload sampleRequirements).2.head? =
      some (LedgerEffect.submitted (SubmitCall.withFeePayer
        { sampleTransaction with feePayerAddress := some 99 } sampleAuthenticator
        "sponsor-signature")) ∧
    (settlePayment sampleCtx sampleLedger samplePayload nonSponsoredRequirements).2.head? =
      some (LedgerEffect.submitted
        (SubmitCall.senderOnly sampleTransaction sampleAuthenticator)) :=
  ⟨(claim_C3_sponsored_cosignature sampleCtx sampleLedger samplePayload sampleRequirements
      ⟨sampleTransaction, sampleAuthenticator, some sampleEntryFunction⟩ rfl rfl).1 rfl,
   (claim_C3_sponsored_cosignature sampleCtx sampleLedger samplePayload nonSponsoredRequirements
      ⟨sampleTransaction, sampleAuthenticator, some sampleEntryFunction⟩ rfl rfl).2 rfl⟩

/-- Claim C4: settlement always re-runs verification: whenever
`verifyPayment` is invalid with reason `reason`, `settlePayment` returns
`success: false` with `errorReason` equal to that same reason, an empty
transaction hash and the verify result's payer, and performs no ledger
call (no submission, no confirmation). -/
theorem claim_C4_settle_reverifies (ctx : FacilitatorCtx) (ledger : Ledger)
    (pp : PaymentPayload) (pr : PaymentRequirements) (reason : String)
    (hinvalid : (verifyPayment ledger.simulate pp pr).isValid = false)
    (hreason : (verifyPayment ledger.simulate pp pr).invalidReason = some reason) :
    settlePayment ctx ledger pp pr =
      ({ success := false, transaction := "", network := pp.accepted.network,
         payer := (verifyPayment ledger.simulate pp pr).payer,
         errorReason := some reason }, []) := by
  have hne := verify_reason_ne_empty ledger.simulate pp pr reason hreason
  have hred := settle_invalid_reduces ctx ledger pp pr hinvalid
  rw [hred, hreason, jsStringOr_some_empty]
  simp [jsStringOr, hne]

/-- Witness for claim C4 at a concrete input: an amount-mismatched payload
fails settlement with the verify reason and an empty ledger trace. -/
theorem claim_C4_witness :
    settlePayment sampleCtx sampleLedger samplePayload paddedAmountRequirements =
      ({ success := false, transaction := "", network := "aptos:2",
         payer := toShortString 42,
         errorReason := some "invalid_payment_amount_mismatch" }, []) :=
  claim_C4_settle_reverifies sampleCtx sampleLedger samplePayload paddedAmountRequirements
    "invalid_payment_amount_mismatch" rfl rfl

/-- Claim C8: the pipeline's only mutation is the fee-payer address
attached on the sponsored settle path: every transaction handed to the
submission collaborator is exactly the decoded transaction when the
requirements are not sponsored, and when sponsored it differs from the
decoded transaction only in the fee-payer address field (the raw
transaction is unchanged); the sender authenticator is passed through
unchanged in both cases. -/
theorem claim_C8_frame_effect (ctx : FacilitatorCtx) (ledger : Ledger)
    (pp : PaymentPayload) (pr : PaymentRequirements) (d : DecodedPayment)
    (hvalid : (verifyPayment ledger.simulate pp pr).isValid = true)
    (hd : deserializeAptosPayment pp.payload.transaction = Except.ok d) :
    ∀ call, LedgerEffect.submitted call ∈ (settlePayment ctx ledger pp pr).2 →
      (isSponsored pr = true →
        call = SubmitCall.withFeePayer
          { d.transaction with feePayerAddress := some ctx.feePayerAddress }
          d.senderAuthenticator
          (ctx.signAsFeePayer { d.transaction with feePayerAddress := some ctx.feePayerAddress }) ∧
        ({ d.transaction with feePayerAddress := some ctx.feePayerAddress } : SimpleTransaction).rawTransaction =
          d.transaction.rawTransaction) ∧
      (isSponsored pr = false →
        call = SubmitCall.senderOnly d.transaction d.senderAuthenticator) := by
  intro call hmem
  have hset := settle_valid_reduces ctx ledger pp pr d hvalid hd
  constructor
  · intro hs
    rw [hset, if_pos hs] at hmem
    exact ⟨submitAndConfirm_submitted_mem _ _ _ _ _ _ hmem, rfl⟩
  · intro hs
    rw [hset, if_neg (by simp [hs])] at hmem
    exact submitAndConfirm_submitted_mem _ _ _ _ _ _ hmem

/-- Witness for claim C8 at a concrete input: on the sponsored sample the
submitted transaction is the decoded one with only the fee-payer address
attached. -/
theorem claim_C8_witness :
    SubmitCall.withFeePayer { sampleTransaction with feePayerAddress := some 99 }
        sampleAuthenticator "sponsor-signature" =
      SubmitCall.withFeePayer { sampleTransaction with feePayerAddress := some 99 }
        sampleAuthenticator "sponsor-signature" ∧
    ({ sampleTransaction with feePayerAddress := some 99 } : SimpleTransaction).rawTransaction =
      sampleTransaction.rawTransaction :=
  (claim_C8_frame_effect sampleCtx sampleLedger samplePayload sampleRequirements
    ⟨sampleTransaction, sampleAuthenticator, some sampleEntryFunction⟩ rfl rfl
    (SubmitCall.withFeePayer { sampleTransaction with feePayerAddress := some 99 }
      sampleAuthenticator "sponsor-signature") (by decide)).1 rfl

/-- Claim C9: every settle call that reaches confirmation returns
`success: true` with the submitted transaction's hash, the requirements'
network (which equals the payload's accepted network because rule 2 of
verification forces them equal), and the sender address as payer. -/
theorem claim_C9_confirmed_result (ctx : FacilitatorCtx) (ledger : Ledger)
    (pp : PaymentPayload) (pr : PaymentRequirements)
    (h : (settlePayment ctx ledger pp pr).1.success = true) :
    ∃ d call pendingTxn,
      deserializeAptosPayment pp.payload.transaction = Except.ok d ∧
      ledger.submit call = Except.ok pendingTxn ∧
      (settlePayment ctx ledger pp pr).2 =
        [LedgerEffect.submitted call, LedgerEffect.waited pendingTxn.hash] ∧
      (settlePayment ctx ledger pp pr).1 =
        { success := true, transaction := pendingTxn.hash, network := pr.network,
          payer := toLongString d.transaction.rawTransaction.sender, errorReason := none } := by
  by_cases hvalid : (verifyPayment ledger.simulate pp pr).isValid = true
  · obtain ⟨hs1, hs2, hn, d, hd, hres⟩ := verify_valid_facts ledger.simulate pp pr hvalid
    have hset := settle_valid_reduces ctx ledger pp pr d hvalid hd
    by_cases hsp : isSponsored pr = true
    · rw [hset, if_pos hsp] at h
      obtain ⟨p, hsub, heq⟩ := submitAndConfirm_success _ _ _ _ _ h
      refine ⟨d, _, p, hd, hsub, ?_, ?_⟩
      · rw [hset, if_pos hsp, heq]
      · rw [hset, if_pos hsp, heq, hn]
    · have hsp2 : isSponsored pr = false := by simpa using hsp
      rw [hset, if_neg (by simp [hsp2])] at h
      obtain ⟨p, hsub, heq⟩ := submitAndConfirm_success _ _ _ _ _ h
      refine ⟨d, _, p, hd, hsub, ?_, ?_⟩
      · rw [hset, if_neg (by simp [hsp2]), heq]
      · rw [hset, if_neg (by simp [hsp2]), heq, hn]
  · have hfalse : (verifyPayment ledger.simulate pp pr).isValid = false := by
      simpa using hvalid
    have hred := settle_invalid_reduces ctx ledger pp pr hfalse
    rw [hred] at h
    simp at h

/-- Witness for claim C9 at a concrete input: the sponsored sample settle
reaches confirmation and returns the hash, the requirements' network and
the sender's long-form address. -/
theorem claim_C9_witness :
    ∃ d call pendingTxn,
      deserializeAptosPayment samplePayload.payload.transaction = Except.ok d ∧
      sampleLedger.submit call = Except.ok pendingTxn ∧
      (settlePayment sampleCtx sampleLedger samplePayload sampleRequirements).2 =
        [LedgerEffect.submitted call, LedgerEffect.waited pendingTxn.hash] ∧
      (settlePayment sampleCtx sampleLedger samplePayload sampleRequirements).1 =
        { success := true, transaction := pendingTxn.hash, network := sampleRequirements.network,
          payer := toLongString d.transaction.rawTransaction.sender, errorReason := none } :=
  claim_C9_confirmed_result sampleCtx sampleLedger samplePayload sampleRequirements rfl

/-- Claim C10: public-key extraction handles exactly the Ed25519,
single-key and multi-key authenticator variants; a payload whose sender
authenticator is any other variant (legacy multi-Ed25519) that passes all
structural rules is not rejected structurally: no key material is
extracted, the simulation collaborator is still invoked (with no public
key), and the verdict is decided entirely by the simulation outcome. -/
theorem claim_C10_authenticator_variants (sim : SimOracle) (pp : PaymentPayload)
    (pr : PaymentRequirements) (txn : SimpleTransaction) (keys : List Nat)
    (ef : EntryFunction) (a0 a1 a2 : List Nat) (x y n : Nat)
    (h1 : pp.accepted.scheme = "exact") (h2 : pr.scheme = "exact")
    (h3 : pp.accepted.network = pr.network)
    (henv : pp.payload.transaction =
      Envelope.wellFormed txn (AccountAuthenticator.multiEd25519 keys))
    (hef : txn.rawTransaction.payload = TransactionPayload.entryFunction ef)
    (hid : ef.module_address = 1 ∧ ef.module_name = "primary_fungible_store" ∧
           ef.function_name = "transfer")
    (hta : ef.type_args.length = 1) (hargs : ef.args = [a0, a1, a2])
    (haf : addrFromBytes a0 = Except.ok x) (hpa : parseAddressString pr.asset = Except.ok x)
    (hrb : addrFromBytes a1 = Except.ok y) (hpt : parseAddressString pr.payTo = Except.ok y)
    (hu64 : deserializeU64 a2 = Except.ok n) (ham : Nat.repr n = pr.amount) :
    extractPublicKey (AccountAuthenticator.multiEd25519 keys) = none ∧
    verifyPayment sim pp pr =
      (match sim none txn with
       | SimOutcome.thrown message =>
           invalidResult ("simulation_error: " ++ message)
             (toShortString txn.rawTransaction.sender)
       | SimOutcome.result r =>
           if r.success then validResult (toShortString txn.rawTransaction.sender)
           else invalidResult ("simulation_failed: " ++ r.vm_status)
             (toShortString txn.rawTransaction.sender)) := by
  refine ⟨rfl, ?_⟩
  have hdec : deserializeAptosPayment pp.payload.transaction =
      Except.ok ⟨txn, AccountAuthenticator.multiEd25519 keys, some ef⟩ := by
    rw [henv]
    simp [deserializeAptosPayment, hef]
  have hred := verify_reduces sim pp pr ⟨txn, AccountAuthenticator.multiEd25519 keys, some ef⟩
    h1 h2 h3 hdec
  have hda := decodedCheck_reaches_amount sim pr
    ⟨txn, AccountAuthenticator.multiEd25519 keys, some ef⟩ ef a0 a1 a2 x y n rfl
    hid hta hargs haf hpa hrb hpt hu64
  rw [hred, hda, if_pos ham]
  rfl

/-- Witness for claim C10 at a concrete input: the multi-Ed25519 sample is
accepted once the always-success simulation oracle reports success. -/
theorem claim_C10_witness :
    extractPublicKey multiEdAuthenticator = none ∧
    verifyPayment simOk multiEdPayload sampleRequirements = validResult (toShortString 42) :=
  ⟨(claim_C10_authenticator_variants simOk multiEdPayload sampleRequirements
      sampleTransaction [3, 4] sampleEntryFunction
      sampleAssetBytes samplePayToBytes sampleAmountBytes 10 11 100
      rfl rfl rfl rfl rfl ⟨rfl, rfl, rfl⟩ rfl rfl rfl rfl rfl rfl rfl rfl).1,
   ((claim_C10_authenticator_variants simOk multiEdPayload sampleRequirements
      sampleTransaction [3, 4] sampleEntryFunction
      sampleAssetBytes samplePayToBytes sampleAmountBytes 10 11 100
      rfl rfl rfl rfl rfl ⟨rfl, rfl, rfl⟩ rfl rfl rfl rfl rfl rfl rfl rfl).2).trans rfl⟩
